import Mathlib

/-!
# Verification of the TauriVoiceToText streaming transcription client

A shallow embedding, in Lean 4, of the core logic of the voice-to-text
client: the PCM frame encoder, the streaming-session connect/send/close
logic of `TranscriptionService` (src/services/transcription.ts), and the
orchestrator state transitions of the `useVoiceToText` hook
(src/hooks/useVoiceToText.ts).  JavaScript numbers are modelled as `ℚ`
(each float value is a rational, and the products taken here are exact in
double precision), strings as Lean `String`, and the asynchronous event
handlers as explicit step functions over event traces.
-/

/-! ## String utilities

`String.includes` / substring tests of the JS code, modelled on the
character lists underlying Lean strings. -/

/-- `matchesAt pat s` is true when `pat` is an initial segment of `s`. -/
def matchesAt : List Char → List Char → Bool
  | [], _ => true
  | _ :: _, [] => false
  | a :: as, b :: bs => a == b && matchesAt as bs

/-- `listHasSub pat s` is true when `pat` occurs contiguously in `s`. -/
def listHasSub (pat : List Char) : List Char → Bool
  | [] => matchesAt pat []
  | b :: bs => matchesAt pat (b :: bs) || listHasSub pat bs

/-- JS `String.prototype.includes`: `hasSubstr pat s` is true when `pat`
occurs as a contiguous substring of `s`. -/
def hasSubstr (pat s : String) : Bool := listHasSub pat.data s.data

/-- Propositional substring containment: `s` contains `pat`, witnessed by a
split of the underlying character list. -/
def strContains (pat s : String) : Prop :=
  ∃ pre suf, s.data = pre ++ pat.data ++ suf

/-! ## Orchestrator state (`useVoiceToText` hook)

`VoiceToTextState` mirrors the hook's React state record; `applyTranscript`
is the `onTranscript` callback registered in `initialize`
(useVoiceToText.ts lines 60-73). -/

/-- The `TranscriptionResult` interface of transcription.ts. -/
structure TranscriptionResult where
  transcript : String
  isFinal : Bool
  confidence : ℚ
deriving DecidableEq, Repr

/-- The `VoiceToTextState` interface of useVoiceToText.ts.  `error` is
`none` for the JS `null`. -/
structure VoiceToTextState where
  isRecording : Bool
  isProcessing : Bool
  transcript : String
  interimTranscript : String
  error : Option String
  isReady : Bool
deriving DecidableEq, Repr

/-- The initial hook state (useVoiceToText.ts lines 26-33). -/
def initState : VoiceToTextState :=
  { isRecording := false, isProcessing := false, transcript := ""
    interimTranscript := "", error := none, isReady := false }

/-- The `onTranscript` callback registered by `initialize`
(useVoiceToText.ts lines 60-73): a final result appends
`prev.transcript + ' ' + result.transcript` and clears the interim slot;
an interim result replaces `interimTranscript` wholesale. -/
def applyTranscript (s : VoiceToTextState) (r : TranscriptionResult) :
    VoiceToTextState :=
  if r.isFinal then
    { s with transcript := s.transcript ++ " " ++ r.transcript
             interimTranscript := "" }
  else
    { s with interimTranscript := r.transcript }

/-- Fold a sequence of transcript events through the callback. -/
def applyTranscripts (s : VoiceToTextState) (rs : List TranscriptionResult) :
    VoiceToTextState :=
  rs.foldl applyTranscript s

/-- Shorthand for an interim event with the given text. -/
def interimEv (t : String) : TranscriptionResult := ⟨t, false, 0⟩

/-- Shorthand for a final event with the given text. -/
def finalEv (t : String) : TranscriptionResult := ⟨t, true, 0⟩

/-! ### C1: transcript merge -/

/-- C1 (counterexample): from the empty transcript, the event sequence
`[interim "he", interim "hell", final "hello"]` yields
`transcript = " hello"` with a leading separator space, not `"hello"` as
the claim states: the callback always prepends `" "` before the appended
text, including for the very first final result. -/
theorem transcript_merge_example_leading_space :
    (applyTranscripts initState
      [interimEv "he", interimEv "hell", finalEv "hello"]).transcript
      ≠ "hello" ∧
    (applyTranscripts initState
      [interimEv "he", interimEv "hell", finalEv "hello"]).transcript
      = " hello" := by
  constructor <;> decide

/-- C1 (amended): an interim event replaces `interimTranscript` wholesale
and a final event appends its text to `transcript` preceded by a separator
space and clears `interimTranscript`; consequently the sequence
`[interim "he", interim "hell", final "hello"]` run from the empty state
yields `transcript = " hello"` (note the leading separator space) and
`interimTranscript = ""`, and a subsequent `final " world"` yields
`transcript = " hello  world"`. -/
theorem transcript_merge_rule :
    (∀ (s : VoiceToTextState) (t : String) (c : ℚ),
      applyTranscript s ⟨t, false, c⟩ = { s with interimTranscript := t }) ∧
    (∀ (s : VoiceToTextState) (t : String) (c : ℚ),
      applyTranscript s ⟨t, true, c⟩ =
        { s with transcript := s.transcript ++ " " ++ t
                 interimTranscript := "" }) ∧
    (applyTranscripts initState
      [interimEv "he", interimEv "hell", finalEv "hello"]).transcript
      = " hello" ∧
    (applyTranscripts initState
      [interimEv "he", interimEv "hell", finalEv "hello"]).interimTranscript
      = "" ∧
    (applyTranscripts initState
      [interimEv "he", interimEv "hell", finalEv "hello",
       finalEv " world"]).transcript = " hello  world" := by
  refine ⟨fun s t c => rfl, fun s t c => rfl, ?_, ?_, ?_⟩ <;> decide

/-! ## PCM frame encoder (`TranscriptionService.float32ToLinear16`)

transcription.ts lines 214-226.  Samples are rationals (every float32
value is rational and both `sample * 32768` and `sample * 32767` are exact
in JS double arithmetic); the assignment into an `Int16Array` truncates
toward zero (`ToIntegerOrInfinity`), and never wraps because the clamped
products already lie inside the signed-16 range. -/

/-- Truncation toward zero, as performed by the JS `Int16Array` element
conversion on an in-range value. -/
def ratTrunc (q : ℚ) : ℤ := if q < 0 then ⌈q⌉ else ⌊q⌋

/-- `Math.max(-1, Math.min(1, x))`: clamp a sample to [-1, 1]. -/
def clampSample (x : ℚ) : ℚ := max (-1) (min 1 x)

/-- One loop iteration of `float32ToLinear16`: clamp the sample, scale by
32768 when negative and by 32767 otherwise, truncate to an integer. -/
def sampleToInt16 (x : ℚ) : ℤ :=
  let sample := clampSample x
  if sample < 0 then ratTrunc (sample * 32768) else ratTrunc (sample * 32767)

/-- `float32ToLinear16` at the sample level: the contents of the produced
`Int16Array`. -/
def float32ToLinear16 (xs : List ℚ) : List ℤ := xs.map sampleToInt16

/-- Little-endian byte serialization of one signed 16-bit value, i.e. the
two bytes of `int16Array.buffer` for one element. -/
def int16ToBytesLE (v : ℤ) : List ℕ :=
  [((v % 65536).toNat) % 256, ((v % 65536).toNat) / 256]

/-- The byte buffer returned by `float32ToLinear16`. -/
def encodeBytes (xs : List ℚ) : List ℕ :=
  (float32ToLinear16 xs).flatMap int16ToBytesLE

theorem neg_one_le_clampSample (x : ℚ) : -1 ≤ clampSample x :=
  le_max_left _ _

theorem clampSample_le_one (x : ℚ) : clampSample x ≤ 1 :=
  max_le (by norm_num) (min_le_left _ _)

theorem sampleToInt16_lower (x : ℚ) : -32768 ≤ sampleToInt16 x := by
  unfold sampleToInt16
  set s := clampSample x with hs
  by_cases h : s < 0
  · simp only [h, if_true]
    unfold ratTrunc
    have hq : (-32768 : ℚ) ≤ s * 32768 := by
      have := neg_one_le_clampSample x
      nlinarith
    by_cases h2 : s * 32768 < 0
    · simp only [h2, if_true]
      calc (-32768 : ℤ) = ⌈(-32768 : ℚ)⌉ := by
            rw [show ((-32768 : ℚ)) = ((-32768 : ℤ) : ℚ) by norm_num,
              Int.ceil_intCast]
        _ ≤ ⌈s * 32768⌉ := Int.ceil_le_ceil hq
    · simp only [h2, if_false]
      have : (0 : ℤ) ≤ ⌊s * 32768⌋ := by
        rw [Int.le_floor]
        push_neg at h2
        exact_mod_cast h2
      omega
  · simp only [h, if_false]
    unfold ratTrunc
    push_neg at h
    have hq : (0 : ℚ) ≤ s * 32767 := by nlinarith
    have hnotlt : ¬ s * 32767 < 0 := not_lt.mpr hq
    simp only [hnotlt, if_false]
    have : (0 : ℤ) ≤ ⌊s * 32767⌋ := by
      rw [Int.le_floor]; exact_mod_cast hq
    omega

theorem sampleToInt16_upper (x : ℚ) : sampleToInt16 x ≤ 32767 := by
  unfold sampleToInt16
  set s := clampSample x with hs
  by_cases h : s < 0
  · simp only [h, if_true]
    unfold ratTrunc
    by_cases h2 : s * 32768 < 0
    · simp only [h2, if_true]
      have : ⌈s * 32768⌉ ≤ 0 := by
        rw [Int.ceil_le]
        push_cast
        nlinarith
      omega
    · simp only [h2, if_false]
      push_neg at h2
      have : s * 32768 ≤ 0 := by nlinarith
      have h0 : s * 32768 = 0 := le_antisymm this h2
      rw [h0]
      simp
  · simp only [h, if_false]
    unfold ratTrunc
    by_cases h2 : s * 32767 < 0
    · simp only [h2, if_true]
      have : ⌈s * 32767⌉ ≤ 0 := by
        rw [Int.ceil_le]
        push_cast
        exact le_of_lt h2
      omega
    · simp only [h2, if_false]
      have hle : s * 32767 ≤ 32767 := by
        have := clampSample_le_one x
        nlinarith
      calc ⌊s * 32767⌋ ≤ ⌊(32767 : ℚ)⌋ := Int.floor_le_floor hle
        _ = 32767 := by
            rw [show ((32767 : ℚ)) = ((32767 : ℤ) : ℚ) by norm_num,
              Int.floor_intCast]

theorem encodeBytes_length (xs : List ℚ) :
    (encodeBytes xs).length = 2 * xs.length := by
  unfold encodeBytes float32ToLinear16
  induction xs with
  | nil => simp
  | cons a l ih =>
      simp only [List.map_cons, List.flatMap_cons, List.length_append, ih,
        int16ToBytesLE, List.length_cons, List.length_nil]
      ring

/-! ### C2: PCM encoding -/

/-- C2: the encoder is a total function (hence pure and deterministic in
this embedding); each sample is clamped to [-1, 1], scaled by 32767 when
non-negative and by 32768 when negative, and truncated toward zero;
1 encodes to 32767, -1 to -32768 and 0 to 0; every produced 16-bit value
lies in [-32768, 32767]; and the output byte buffer has exactly twice as
many bytes as there are input samples. -/
theorem float32ToLinear16_spec :
    sampleToInt16 1 = 32767 ∧
    sampleToInt16 (-1) = -32768 ∧
    sampleToInt16 0 = 0 ∧
    (∀ x : ℚ, -32768 ≤ sampleToInt16 x ∧ sampleToInt16 x ≤ 32767) ∧
    (∀ xs : List ℚ, (encodeBytes xs).length = 2 * xs.length) ∧
    (∀ xs : List ℚ, float32ToLinear16 xs = xs.map sampleToInt16) := by
  refine ⟨?_, ?_, ?_,
    fun x => ⟨sampleToInt16_lower x, sampleToInt16_upper x⟩,
    encodeBytes_length, fun xs => rfl⟩
  · show sampleToInt16 1 = 32767
    norm_num [sampleToInt16, clampSample, ratTrunc]
  · show sampleToInt16 (-1) = -32768
    norm_num [sampleToInt16, clampSample, ratTrunc]
    rw [show ((-32768 : ℚ)) = ((-32768 : ℤ) : ℚ) by norm_num,
      Int.ceil_intCast]
  · show sampleToInt16 0 = 0
    norm_num [sampleToInt16, clampSample, ratTrunc]

/-! ## Connect promise state machine (`TranscriptionService.connect`)

transcription.ts lines 41-107.  During one connect attempt the service
registers handlers on the live connection: the `Open` handler sets
`isConnected := true` and resolves the awaited promise, the `Error`
handler rejects it, and the `Close` handler installed by
`setupEventListeners` sets `isConnected := false`.  A promise settles at
most once: the first resolve or reject wins.  We model the handlers as a
step function over the trace of events delivered while connecting. -/

/-- An event delivered on the live connection while `connect()` waits. -/
inductive ConnEvent where
  | openAck
  | errorEv (msg : String)
  | closeEv (code : Nat)
deriving DecidableEq, Repr

/-- The observable state of one connect attempt: the service's
`isConnected` flag and whether the awaited promise has been resolved
(connect returned) or rejected (attempt failed). -/
structure ConnectAttemptState where
  isConnected : Bool
  resolved : Bool
  rejected : Bool
deriving DecidableEq, Repr

/-- State before any event is delivered: `isConnected = false`
(transcription.ts line 26) and the promise is pending. -/
def connInit : ConnectAttemptState :=
  { isConnected := false, resolved := false, rejected := false }

/-- Effect of one delivered event on the connect attempt: `Open` sets
`isConnected := true` and resolves the promise if it is still pending;
`Error` rejects the promise if it is still pending; `Close` (from
`setupEventListeners`) sets `isConnected := false`. -/
def connStep (s : ConnectAttemptState) (e : ConnEvent) : ConnectAttemptState :=
  match e with
  | ConnEvent.openAck =>
      { s with isConnected := true, resolved := s.resolved || !s.rejected }
  | ConnEvent.errorEv _ =>
      { s with rejected := s.rejected || !s.resolved }
  | ConnEvent.closeEv _ =>
      { s with isConnected := false }

/-- Run a trace of connection events from a given state. -/
def connRun (s : ConnectAttemptState) (events : List ConnEvent) :
    ConnectAttemptState :=
  events.foldl connStep s

theorem connRun_no_open (events : List ConnEvent) :
    ∀ s : ConnectAttemptState,
      (∀ e ∈ events, e ≠ ConnEvent.openAck) →
      s.isConnected = false → s.resolved = false →
      (connRun s events).isConnected = false ∧
      (connRun s events).resolved = false := by
  induction events with
  | nil => intro s _ hc hr; exact ⟨hc, hr⟩
  | cons e es ih =>
      intro s hno hc hr
      have hne : e ≠ ConnEvent.openAck := hno e (List.mem_cons_self e es)
      have hrest : ∀ e' ∈ es, e' ≠ ConnEvent.openAck :=
        fun e' he' => hno e' (List.mem_cons_of_mem e he')
      show (connRun (connStep s e) es).isConnected = false ∧
        (connRun (connStep s e) es).resolved = false
      cases e with
      | openAck => exact absurd rfl hne
      | errorEv m => exact ih _ hrest (by simp [connStep, hc]) (by simp [connStep, hr])
      | closeEv c => exact ih _ hrest (by simp [connStep]) (by simp [connStep, hr])

/-! ### C3: session open invariant -/

/-- C3: for every trace of `Error`/`Close` events delivered during
`connect()` that contains no `Open` acknowledgment, the session never
becomes connected (`isConnected` stays false) and the connect promise is
never resolved; in particular a failure during the connecting phase ends
with `isConnected = false`, never having passed through the open state. -/
theorem connect_requires_open_ack (events : List ConnEvent)
    (hno : ∀ e ∈ events, e ≠ ConnEvent.openAck) :
    (connRun connInit events).isConnected = false ∧
    (connRun connInit events).resolved = false :=
  connRun_no_open events connInit hno rfl rfl

/-- Witness for C3: the concrete interleaving
`[Error "socket error", Close 1006, Error "late"]` contains no open
acknowledgment, and running it leaves the session unconnected and the
promise unresolved. -/
theorem connect_requires_open_ack_witness :
    (connRun connInit
      [ConnEvent.errorEv "socket error", ConnEvent.closeEv 1006,
       ConnEvent.errorEv "late"]).isConnected = false ∧
    (connRun connInit
      [ConnEvent.errorEv "socket error", ConnEvent.closeEv 1006,
       ConnEvent.errorEv "late"]).resolved = false :=
  connect_requires_open_ack _ (by decide)

/-! ## Sending audio (`TranscriptionService.sendAudio`)

transcription.ts lines 186-208: `sendAudio` throws
`'Not connected to transcription service'` unless `isConnected` is true
and a connection object exists; otherwise it encodes a `Float32Array`
input through `float32ToLinear16` and forwards the bytes. -/

/-- The connection-relevant fields of a `TranscriptionService` instance:
its `isConnected` flag and whether `connection` is non-null. -/
structure ServiceConn where
  isConnected : Bool
  hasConnection : Bool
deriving DecidableEq, Repr

/-- Failure modes of `sendAudio`. -/
inductive SendError where
  | notConnected
deriving DecidableEq, Repr

/-- `sendAudio` on a `Float32Array` input: guard, then encode and forward.
The `ok` payload is the byte buffer handed to `connection.send`. -/
def sendAudio (s : ServiceConn) (frame : List ℚ) :
    Except SendError (List ℕ) :=
  if s.isConnected && s.hasConnection then
    Except.ok (encodeBytes frame)
  else
    Except.error SendError.notConnected

/-! ### C4: send precondition -/

/-- C4: whenever the session is not open (`isConnected = false`, which
covers idle, closed and never-connected sessions, and also a session whose
connection object is missing), `sendAudio` fails with the NotConnected
error for every frame: it never silently drops the frame and never
forwards bytes. -/
theorem sendAudio_requires_open (s : ServiceConn) (frame : List ℚ)
    (h : s.isConnected = false ∨ s.hasConnection = false) :
    sendAudio s frame = Except.error SendError.notConnected := by
  unfold sendAudio
  rcases h with h | h <;> simp [h]

/-- Witness for C4: a never-connected service (`isConnected = false`, no
connection object) rejects a concrete frame with NotConnected. -/
theorem sendAudio_requires_open_witness :
    sendAudio ⟨false, false⟩ [1/2, -1/4] =
      Except.error SendError.notConnected :=
  sendAudio_requires_open ⟨false, false⟩ [1/2, -1/4] (Or.inl rfl)

/-! ## Bounded connect retry (`TranscriptionService.connect`)

transcription.ts lines 47-107.  The retry loop runs while
`attempts < maxAttempts` with `maxAttempts = 2`.  Each iteration makes one
underlying connection attempt; on failure, if the error message contains
`'1006'` or `'Network error'` the loop sleeps 500ms and retries, otherwise
it breaks.  After the loop, the registered error callback is invoked with
the last error message and a descriptive error is thrown.  We model the
outcome of the i-th underlying attempt as an oracle
`outcomes : Nat → AttemptOutcome`. -/

/-- Outcome of one underlying connection attempt: the awaited promise
either resolves (open acknowledgment) or rejects with an error message. -/
inductive AttemptOutcome where
  | success
  | failure (msg : String)
deriving DecidableEq, Repr

/-- The observable result of one `connect()` call: how many underlying
attempts were made, how many 500ms backoff sleeps were taken, whether it
returned or threw (`Except.error` carries the thrown message), and the
message passed to the registered error callback (`none` when the callback
is not invoked). -/
structure ConnectResult where
  attemptsMade : Nat
  backoffs : Nat
  result : Except String Unit
  callbackMsg : Option String
deriving Repr

/-- The retry predicate of connect:
`error?.message?.includes('1006') || error?.message?.includes('Network error')`. -/
def isTransientMsg (msg : String) : Bool :=
  hasSubstr "1006" msg || hasSubstr "Network error" msg

/-- The exhaustion path after the retry loop (transcription.ts lines
100-106): invoke the error callback with
`lastError?.message || 'Failed to connect to Deepgram'` and throw
`'Failed to connect to transcription service: ' + lastError.message`
(JS falls back to `String(lastError)`, i.e. `'Error'`, when the message
is empty). -/
def connectFail (made backs : Nat) (lastErr : Option String) :
    ConnectResult :=
  let m := lastErr.getD ""
  { attemptsMade := made
    backoffs := backs
    result := Except.error ("Failed to connect to transcription service: "
      ++ (if m = "" then "Error" else m))
    callbackMsg := some (if m = "" then "Failed to connect to Deepgram"
      else m) }

/-- The `while (attempts < maxAttempts)` loop of `connect()`, recursing on
the number of remaining permitted attempts.  A successful attempt returns
at once; a failure whose message is transient sleeps 500ms (counted in
`backoffs`) and retries; any other failure breaks out to the exhaustion
path. -/
def connectLoop (outcomes : Nat → AttemptOutcome) :
    Nat → Nat → Nat → Option String → ConnectResult
  | 0, made, backs, lastErr => connectFail made backs lastErr
  | rem + 1, made, backs, _lastErr =>
    match outcomes made with
    | AttemptOutcome.success =>
        { attemptsMade := made + 1, backoffs := backs
          result := Except.ok (), callbackMsg := none }
    | AttemptOutcome.failure msg =>
        if isTransientMsg msg then
          connectLoop outcomes rem (made + 1) (backs + 1) (some msg)
        else
          connectFail (made + 1) backs (some msg)
    termination_by rem => rem

/-- `connect()`: an already-connected service returns immediately without
attempting anything; otherwise the bounded retry loop runs with
`maxAttempts = 2`. -/
def connect (alreadyConnected : Bool) (outcomes : Nat → AttemptOutcome) :
    ConnectResult :=
  if alreadyConnected then
    { attemptsMade := 0, backoffs := 0, result := Except.ok ()
      callbackMsg := none }
  else
    connectLoop outcomes 2 0 0 none

/-! ### C5: bounded connect retry -/

/-- C5: `connect()` never makes more than two underlying attempts; a first
attempt failing with a transient message (one containing the
abnormal-close/network-error signature) is retried exactly once, after a
500ms backoff; a first attempt failing with a non-transient message is not
retried and connect throws at once; and on exhaustion (both attempts
failing, the first transiently), the registered error callback receives
the last underlying error message and the thrown error message is
`"Failed to connect to transcription service: "` followed by that last
message. -/
theorem connect_retry_policy :
    (∀ (b : Bool) (f : Nat → AttemptOutcome),
      (connect b f).attemptsMade ≤ 2) ∧
    (∀ (f : Nat → AttemptOutcome) (m : String),
      f 0 = AttemptOutcome.failure m → isTransientMsg m = true →
      (connect false f).attemptsMade = 2 ∧ 1 ≤ (connect false f).backoffs) ∧
    (∀ (f : Nat → AttemptOutcome) (m : String),
      f 0 = AttemptOutcome.failure m → isTransientMsg m = false → m ≠ "" →
      (connect false f).attemptsMade = 1 ∧
      (connect false f).result =
        Except.error ("Failed to connect to transcription service: " ++ m) ∧
      (connect false f).callbackMsg = some m) ∧
    (∀ (f : Nat → AttemptOutcome) (m₁ m₂ : String),
      f 0 = AttemptOutcome.failure m₁ → f 1 = AttemptOutcome.failure m₂ →
      isTransientMsg m₁ = true → isTransientMsg m₂ = true → m₂ ≠ "" →
      (connect false f).attemptsMade = 2 ∧
      (connect false f).result =
        Except.error ("Failed to connect to transcription service: " ++ m₂) ∧
      (connect false f).callbackMsg = some m₂) := by
  refine ⟨?_, ?_, ?_, ?_⟩
  · intro b f
    cases b with
    | true => simp [connect]
    | false =>
        show (connectLoop f 2 0 0 none).attemptsMade ≤ 2
        simp only [connectLoop]
        cases f 0 with
        | success => simp
        | failure m =>
            by_cases ht : isTransientMsg m = true
            · simp only [ht, if_true]
              cases f 1 with
              | success => simp
              | failure m' =>
                  by_cases ht' : isTransientMsg m' = true
                  · simp [ht', connectFail]
                  · simp only [eq_false_of_ne_true ht', Bool.false_eq_true,
                      if_false]
                    simp [connectFail]
            · simp only [eq_false_of_ne_true ht, Bool.false_eq_true, if_false]
              simp [connectFail]
  · intro f m h0 ht
    show (connectLoop f 2 0 0 none).attemptsMade = 2 ∧
      1 ≤ (connectLoop f 2 0 0 none).backoffs
    simp only [connectLoop, h0, ht, if_true]
    cases f 1 with
    | success => simp
    | failure m' =>
        by_cases ht' : isTransientMsg m' = true
        · simp [ht', connectFail]
        · simp only [eq_false_of_ne_true ht', Bool.false_eq_true, if_false]
          simp [connectFail]
  · intro f m h0 ht hm
    simp [connect, connectLoop, h0, ht, connectFail, hm]
  · intro f m₁ m₂ h0 h1 ht1 ht2 hm
    simp [connect, connectLoop, h0, h1, ht1, ht2, connectFail, hm]

/-- Witness for C5: with a first attempt failing on the abnormal-close
signature (`"... 1006 ..."`) and a second failing on `"Network error"`,
connect makes exactly two attempts, backs off at least once, invokes the
error callback with the second message and throws the descriptive error
containing it; and a non-transient first failure (`"401 Unauthorized"`)
is never retried. -/
theorem connect_retry_policy_witness :
    ((connect false (fun n => if n = 0
        then AttemptOutcome.failure "WebSocket closed with code 1006"
        else AttemptOutcome.failure "Network error")).attemptsMade = 2 ∧
      (connect false (fun n => if n = 0
        then AttemptOutcome.failure "WebSocket closed with code 1006"
        else AttemptOutcome.failure "Network error")).result =
        Except.error
          ("Failed to connect to transcription service: " ++ "Network error") ∧
      (connect false (fun n => if n = 0
        then AttemptOutcome.failure "WebSocket closed with code 1006"
        else AttemptOutcome.failure "Network error")).callbackMsg =
        some "Network error") ∧
    ((connect false
        (fun _ => AttemptOutcome.failure "401 Unauthorized")).attemptsMade
        = 1 ∧
      (connect false
        (fun _ => AttemptOutcome.failure "401 Unauthorized")).result =
        Except.error
          ("Failed to connect to transcription service: "
            ++ "401 Unauthorized") ∧
      (connect false
        (fun _ => AttemptOutcome.failure "401 Unauthorized")).callbackMsg =
        some "401 Unauthorized") :=
  ⟨connect_retry_policy.2.2.2 _ "WebSocket closed with code 1006"
      "Network error" rfl rfl (by decide) (by decide) (by decide),
    connect_retry_policy.2.2.1 _ "401 Unauthorized" rfl (by decide)
      (by decide)⟩

/-! ## Two-tier credential validation (`TranscriptionService.validateApiKey`)

transcription.ts lines 249-272: the browser-side probe runs first; on
failure the native (Tauri) probe runs; only when both fail is a classified
error thrown, built from `nativeProbe.message || probe.message || ''`
(JS `||`: an empty string falls through) and `probe.code`.  We model both
probe outcomes as inputs; laziness of the second probe does not affect
the returned value. -/

/-- A probe outcome, i.e. the `DiagnosticResult` shape produced by
`probeConnection` and `probeDeepgramNative`. -/
structure ProbeResult where
  success : Bool
  message : String
  code : Option Nat
deriving DecidableEq, Repr

/-- Classification of a validation failure. -/
inductive FailureClass where
  | auth
  | network
  | generic
deriving DecidableEq, Repr

/-- `nativeProbe.message || probe.message || ''`. -/
def pickValidationMsg (native primary : ProbeResult) : String :=
  if native.message ≠ "" then native.message
  else if primary.message ≠ "" then primary.message
  else ""

/-- The failure-classification branch of `validateApiKey`
(transcription.ts lines 262-271): the auth regex, then the timeout regex
or `probe.code === 1006`, then the generic fallback.  The regexes are
case-insensitive, modelled by lowering the message. -/
def classifyValidationFailure (msg : String) (primaryCode : Option Nat) :
    FailureClass × String :=
  let lower := msg.toLower
  if hasSubstr "authentication failed" lower || hasSubstr "401" lower
      || hasSubstr "unauthorized" lower || hasSubstr "access token" lower then
    (FailureClass.auth, "Authentication failed — check your Deepgram API key")
  else if hasSubstr "timed out" lower
      || hasSubstr "websocket probe timed out" lower
      || hasSubstr "timeout" lower || primaryCode == some 1006 then
    (FailureClass.network,
      "WebSocket connection failed (possible network/firewall/proxy issue): "
        ++ msg)
  else
    (FailureClass.generic, "Deepgram API key validation failed: " ++ msg)

/-- `validateApiKey`: resolve when the primary probe succeeds; otherwise
resolve when the native probe succeeds; otherwise throw the classified
error. -/
def validateApiKey (primary native : ProbeResult) :
    Except (FailureClass × String) Unit :=
  if primary.success then Except.ok ()
  else if native.success then Except.ok ()
  else Except.error
    (classifyValidationFailure (pickValidationMsg native primary)
      primary.code)

/-! ### C6: two-tier credential validation -/

/-- C6: `validateApiKey` resolves without throwing whenever the primary
probe succeeds, and also whenever the primary probe fails (for any
reason, including a timeout result) but the alternate native probe
succeeds; and it throws a classified error (authentication, network or
generic) if and only if both probes fail. -/
theorem validateApiKey_two_tier :
    (∀ primary native : ProbeResult, primary.success = true →
      validateApiKey primary native = Except.ok ()) ∧
    (∀ primary native : ProbeResult, native.success = true →
      validateApiKey primary native = Except.ok ()) ∧
    (∀ primary native : ProbeResult,
      (∃ e, validateApiKey primary native = Except.error e) ↔
        (primary.success = false ∧ native.success = false)) := by
  refine ⟨fun p n h => by simp [validateApiKey, h],
    fun p n h => by simp [validateApiKey, h], fun p n => ?_⟩
  constructor
  · rintro ⟨e, he⟩
    by_cases hp : p.success
    · simp [validateApiKey, hp] at he
    · by_cases hn : n.success
      · simp [validateApiKey, hp, hn] at he
      · exact ⟨eq_false_of_ne_true hp, eq_false_of_ne_true hn⟩
  · rintro ⟨hp, hn⟩
    exact ⟨classifyValidationFailure (pickValidationMsg n p) p.code,
      by simp [validateApiKey, hp, hn]⟩

/-- Witness for C6: a timed-out primary probe with a successful native
probe resolves; the same timed-out primary probe with a failed native
probe throws; a successful primary probe resolves. -/
theorem validateApiKey_two_tier_witness :
    validateApiKey ⟨false, "WebSocket probe timed out", none⟩
      ⟨true, "WebSocket opened successfully", none⟩ = Except.ok () ∧
    validateApiKey ⟨true, "WebSocket opened successfully", none⟩
      ⟨false, "", none⟩ = Except.ok () ∧
    ((∃ e, validateApiKey ⟨false, "WebSocket probe timed out", none⟩
        ⟨false, "Native probe failed: timeout", none⟩ = Except.error e) ↔
      ((false : Bool) = false ∧ (false : Bool) = false)) :=
  ⟨validateApiKey_two_tier.2.1 _ _ rfl,
    validateApiKey_two_tier.1 _ _ rfl,
    validateApiKey_two_tier.2.2
      ⟨false, "WebSocket probe timed out", none⟩
      ⟨false, "Native probe failed: timeout", none⟩⟩

/-! ## Starting a recording (`startRecording` in useVoiceToText.ts)

useVoiceToText.ts lines 159-200.  The only guard is that both service
refs are non-null (`!audioServiceRef.current ||
!transcriptionServiceRef.current`); there is no check of `isReady`.  When
the guard passes, the hook first resets
`{isProcessing: true, error: null, transcript: '', interimTranscript: ''}`,
then awaits `connect()` and starts audio capture; a thrown error lands in
the catch block.  The outcome of `connect()` is an input to the model
(`none` = resolved, `some msg` = threw with message `msg`). -/

/-- Whether the two mutable service refs of the hook are non-null.  Note
that `initialize` assigns both refs before `validateApiKey` can fail, so
both may be set while `isReady` is still false. -/
structure ServiceRefs where
  audioInit : Bool
  transcriptionInit : Bool
deriving DecidableEq, Repr

/-- The observable run of one `startRecording()` call: whether
`connect()` was reached, whether audio capture was started, the hook
state in force when `connect()` was invoked (`none` when connect was
never reached), and the final hook state. -/
structure StartRecordingRun where
  connectAttempted : Bool
  captureStarted : Bool
  stateAtConnect : Option VoiceToTextState
  finalState : VoiceToTextState
deriving DecidableEq, Repr

/-- `startRecording` (useVoiceToText.ts lines 159-200). -/
def startRecording (refs : ServiceRefs) (s : VoiceToTextState)
    (connectErr : Option String) : StartRecordingRun :=
  if refs.audioInit && refs.transcriptionInit then
    let s1 : VoiceToTextState :=
      { s with isProcessing := true, error := none, transcript := ""
               interimTranscript := "" }
    match connectErr with
    | none =>
        { connectAttempted := true, captureStarted := true
          stateAtConnect := some s1
          finalState := { s1 with isRecording := true
                                  isProcessing := false } }
    | some msg =>
        { connectAttempted := true, captureStarted := false
          stateAtConnect := some s1
          finalState := { s1 with error := some msg, isRecording := false
                                  isProcessing := false } }
  else
    { connectAttempted := false, captureStarted := false
      stateAtConnect := none
      finalState := { s with error := some "Services not initialized" } }

/-! ### C7: startRecording precondition -/

/-- C7 (counterexample): in the initial hook state `isReady` is false,
yet when both service refs are set (as they are once `initialize` has
constructed the services, even if credential validation then failed)
`startRecording` proceeds to connect the session and start capture: the
code guards only on the refs being non-null and never consults
`isReady`. -/
theorem startRecording_ignores_isReady :
    initState.isReady = false ∧
    (startRecording ⟨true, true⟩ initState none).connectAttempted = true ∧
    (startRecording ⟨true, true⟩ initState none).captureStarted = true := by
  refine ⟨rfl, ?_, ?_⟩ <;> rfl

/-- C7 (amended): `startRecording` proceeds to connect exactly when both
service refs are non-null, independently of `isReady`; capture starts
exactly when, in addition, `connect()` resolves; and when either ref is
null the call only records the error `"Services not initialized"`,
neither connecting nor capturing. -/
theorem startRecording_guard :
    (∀ (refs : ServiceRefs) (s : VoiceToTextState)
        (c : Option String),
      (startRecording refs s c).connectAttempted =
        (refs.audioInit && refs.transcriptionInit)) ∧
    (∀ (refs : ServiceRefs) (s : VoiceToTextState)
        (c : Option String),
      (startRecording refs s c).captureStarted =
        ((refs.audioInit && refs.transcriptionInit) && c.isNone)) ∧
    (∀ (s : VoiceToTextState) (c : Option String) (b : Bool),
      (startRecording ⟨false, b⟩ s c).finalState.error =
        some "Services not initialized" ∧
      (startRecording ⟨b, false⟩ s c).finalState.error =
        some "Services not initialized") := by
  refine ⟨fun refs s c => ?_, fun refs s c => ?_, fun s c b => ?_⟩
  · rcases refs with ⟨a, t⟩
    cases a <;> cases t <;> cases c <;> rfl
  · rcases refs with ⟨a, t⟩
    cases a <;> cases t <;> cases c <;> rfl
  · cases b <;> cases c <;> exact ⟨rfl, rfl⟩

/-! ## Service-level transcript dispatch
(`TranscriptionService.setupEventListeners`, Transcript handler)

transcription.ts lines 116-128: the handler extracts the transcript text
and only invokes the registered callback when the text is truthy, i.e.
non-empty — an event with empty text (final or not) is dropped before it
reaches the orchestrator. -/

/-- The Transcript-event handler of `setupEventListeners`: `none` when
the callback is not invoked, `some r` when it is invoked with `r`. -/
def dispatchTranscript (text : String) (isFinal : Bool) (conf : ℚ) :
    Option TranscriptionResult :=
  if text ≠ "" then some ⟨text, isFinal, conf⟩ else none

/-- One received transcript event, end to end: service dispatch followed
by the orchestrator callback when the service forwards it. -/
def handleTranscriptEvent (s : VoiceToTextState) (text : String)
    (isFinal : Bool) (conf : ℚ) : VoiceToTextState :=
  match dispatchTranscript text isFinal conf with
  | some r => applyTranscript s r
  | none => s

/-! ### C8: final events clear the interim slot -/

/-- C8 (counterexample): a received final event with empty text does not
clear the interim slot — the service-level handler drops any event whose
text is empty before the orchestrator callback runs, so a state holding
the interim text `"hel"` is left unchanged, where the claim requires
`interimTranscript` to become `""`. -/
theorem final_empty_text_keeps_interim :
    (handleTranscriptEvent { initState with interimTranscript := "hel" }
      "" true 0).interimTranscript ≠ "" ∧
    handleTranscriptEvent { initState with interimTranscript := "hel" }
      "" true 0 = { initState with interimTranscript := "hel" } := by
  constructor <;> decide

/-- C8 (amended): for every received transcript event with
`isFinal = true` and non-empty text, the orchestrator appends that text
(preceded by the separator space) to `transcript` exactly once and sets
`interimTranscript` to the empty string; a final event with empty text is
dropped by the service layer and leaves the state unchanged. -/
theorem final_event_appends_and_clears :
    (∀ (s : VoiceToTextState) (text : String) (conf : ℚ), text ≠ "" →
      handleTranscriptEvent s text true conf =
        { s with transcript := s.transcript ++ " " ++ text
                 interimTranscript := "" }) ∧
    (∀ (s : VoiceToTextState) (conf : ℚ),
      handleTranscriptEvent s "" true conf = s) := by
  constructor
  · intro s text conf h
    simp [handleTranscriptEvent, dispatchTranscript, h, applyTranscript]
  · intro s conf
    simp [handleTranscriptEvent, dispatchTranscript]

/-- Witness for C8: a concrete final event with text `"hi"` appends
`" hi"` and clears the interim slot `"h"`; a concrete final event with
empty text leaves that same state untouched. -/
theorem final_event_appends_and_clears_witness :
    handleTranscriptEvent { initState with interimTranscript := "h" }
      "hi" true 0 =
      { initState with transcript := " hi", interimTranscript := "" } ∧
    handleTranscriptEvent { initState with interimTranscript := "h" }
      "" true 0 = { initState with interimTranscript := "h" } :=
  ⟨final_event_appends_and_clears.1
      { initState with interimTranscript := "h" } "hi" 0 (by decide),
    final_event_appends_and_clears.2
      { initState with interimTranscript := "h" } 0⟩

/-! ## Close-event handling
(`TranscriptionService.setupEventListeners`, Close handler)

transcription.ts lines 157-179: the handler logs code and reason, sets
`isConnected := false`, and dispatches to the error callback only when
`code && code !== 1000` — a JS truthiness test, so the close code 0 (the
`CloseEvent.code` default when no code is present) is never dispatched.
Code 1006 gets the dedicated network-failure message; other codes get
`'Connection closed (code N)'` with the reason appended when present. -/

/-- The dedicated message for the abnormal-closure code 1006. -/
def abnormalCloseMsg : String :=
  "Connection closed abnormally (1006) — possible network/firewall/TLS/proxy issue blocking WebSocket connections"

/-- The Close-event handler: the message handed to the registered error
callback, or `none` when the event is only logged.  `code` is the
`CloseEvent.code` unsigned short (0 when absent). -/
def closeHandler (code : Nat) (reason : String) : Option String :=
  if code ≠ 0 ∧ code ≠ 1000 then
    some (if code = 1006 then abnormalCloseMsg
      else "Connection closed (code " ++ toString code ++ ")"
        ++ (if reason ≠ "" then ": " ++ reason else ""))
  else none

theorem strData_append (a b : String) : (a ++ b).data = a.data ++ b.data :=
  rfl

/-! ### C9: abnormal-close error dispatch -/

/-- C9 (counterexample): a close event carrying code 0 (the `CloseEvent`
default code, delivered when the transport reports no close code) has a
code different from the normal-closure code 1000, yet the handler does
not invoke the error callback: the guard `code && code !== 1000` treats
the code 0 as falsy. -/
theorem close_code_zero_not_dispatched :
    (0 : Nat) ≠ 1000 ∧ closeHandler 0 "" = none := by
  constructor
  · decide
  · rfl

/-- C9 (amended): for every received close event whose code is neither 0
nor the normal-closure code 1000, the handler invokes the registered
error callback with a message that includes the close code; for code 1006
in particular (with no prior Error event needed) the message is the
dedicated network-failure one; and a close event with code 1000 — or with
the absent-code value 0 — is logged only and does not invoke the error
callback. -/
theorem close_dispatch_rule :
    (∀ (code : Nat) (reason : String), code ≠ 0 → code ≠ 1000 →
      ∃ m, closeHandler code reason = some m ∧ strContains (toString code) m) ∧
    (∀ reason : String, closeHandler 1006 reason = some abnormalCloseMsg) ∧
    (∀ reason : String, closeHandler 1000 reason = none) ∧
    (∀ reason : String, closeHandler 0 reason = none) := by
  refine ⟨?_, fun reason => rfl, fun reason => rfl, fun reason => rfl⟩
  intro code reason h0 h1000
  by_cases h6 : code = 1006
  · subst h6
    refine ⟨abnormalCloseMsg, rfl, ?_⟩
    refine ⟨"Connection closed abnormally (".data,
      (") — possible network/firewall/TLS/proxy issue blocking WebSocket connections").data, ?_⟩
    decide
  · refine ⟨"Connection closed (code " ++ toString code ++ ")"
      ++ (if reason ≠ "" then ": " ++ reason else ""), ?_, ?_⟩
    · simp only [closeHandler, h0, h1000, ne_eq, not_false_iff, and_self,
        if_true, h6, if_false]
    · refine ⟨"Connection closed (code ".data,
        (")" ++ (if reason ≠ "" then ": " ++ reason else "")).data, ?_⟩
      simp only [strData_append, List.append_assoc]

/-- Witness for C9: the concrete close code 1011 with reason
`"internal error"` is dispatched with a message containing `"1011"`. -/
theorem close_dispatch_rule_witness :
    ∃ m, closeHandler 1011 "internal error" = some m ∧
      strContains (toString (1011 : Nat)) m :=
  close_dispatch_rule.1 1011 "internal error" (by decide) (by decide)

/-! ### C10: startRecording resets the transcript -/

/-- C10: whenever `startRecording` proceeds past its service-refs guard
(both refs non-null), the state in force when `connect()` is invoked has
`transcript = ""` and `interimTranscript = ""`, for every prior state —
text accumulated in a previous recording session is discarded by starting
a new one, even when `clearTranscript()` was never called. -/
theorem startRecording_resets_transcript (s : VoiceToTextState)
    (c : Option String) :
    ∃ s1, (startRecording ⟨true, true⟩ s c).stateAtConnect = some s1 ∧
      s1.transcript = "" ∧ s1.interimTranscript = "" := by
  cases c with
  | none => exact ⟨_, rfl, rfl, rfl⟩
  | some msg => exact ⟨_, rfl, rfl, rfl⟩
